import Mathlib

/-!
Verification of the page-count estimator of translator_app.py.

The estimator (`Translator.page_count` and the three heuristic routines
`estimate_docx_a4_pages`, `estimate_excel_a4_pages`, `estimate_txt_a4_pages`)
is embedded shallowly:

* Python floats are modelled as exact rationals (ℚ); the formulas involved
  are small products/quotients of small constants, and the claims under
  scrutiny are about the formulas, the flooring and the ceiling structure.
* Parsed documents (python-docx `Document`, openpyxl workbooks, PyPDF2
  readers, ...) are modelled by the fields of the parsed structure that the
  estimator actually reads.  A third-party parser invocation that may raise
  is modelled as an `Option` of its parse result (`none` = the library call
  raised), and the `try`/`except` in `page_count` is modelled with
  `Except`: the body produces `Except.error ()` where the Python body would
  raise, and `page_count` catches it and returns `none` (Python `None`).
* `bytes.decode("utf-8", errors="ignore")` is modelled by an executable
  UTF-8 decoder over byte lists that skips undecodable bytes.
-/

namespace TranslatorApp

/-! ## Layout constants (translator_app.py, DOC-CONFIG block, lines 31-41) -/

def A4_WIDTH_PT : ℚ := 595
def A4_HEIGHT_PT : ℚ := 842
def DEFAULT_MARGIN_PT : ℚ := 72
def DEFAULT_FONT_SIZE_PT : ℚ := 12
def LINE_HEIGHT_FACTOR : ℚ := 1.2
def AVG_CHARS_PER_LINE : ℕ := 80
def PARA_SPACING_LINES : ℚ := 0.3
def TABLE_ROW_LINES : ℚ := 1
def TABLE_AFTER_SPACING_LINES : ℚ := 0.5
def HEADER_FOOTER_LINES : ℚ := 1.0
def EMU_PER_POINT : ℚ := 12700

/-- line_height = DEFAULT_FONT_SIZE_PT * LINE_HEIGHT_FACTOR (line 202). -/
def lineHeight : ℚ := DEFAULT_FONT_SIZE_PT * LINE_HEIGHT_FACTOR

/-! ## Length values and `_to_points_len` (lines 173-191) -/

/-- A python-docx length-like value as seen by `_to_points_len`:
either `float(obj.pt)` succeeds (`pts`), or it fails but `float(obj)`
succeeds (`raw`), or both conversions raise (`bad`). -/
inductive LenVal where
  | pts (p : ℚ)
  | raw (v : ℚ)
  | bad
  deriving DecidableEq

/-- Embedding of `_to_points_len` (lines 173-191): use `.pt` when available;
otherwise treat a bare number above 10000 as EMU and divide by
`EMU_PER_POINT`, a number at or below 10000 as already points; if neither
conversion works, return 0.0. -/
def to_points_len : LenVal → ℚ
  | .pts p => p
  | .raw v => if 10000 < v then v / EMU_PER_POINT else v
  | .bad => 0

/-! ## DOCX document model (the fields `estimate_docx_a4_pages` reads) -/

/-- A paragraph: its `.text` and whether its XML contains a
`w:br` element with attribute `w:type="page"` (`_has_page_break`). -/
structure DocxParagraph where
  text : String
  hasPageBreak : Bool
  deriving DecidableEq

/-- A table: the estimator only reads `len(table.rows)`. -/
structure DocxTable where
  rows : ℕ
  deriving DecidableEq

/-- The first section of the document: page geometry plus the texts of the
header and footer paragraphs. -/
structure DocxSection where
  page_height : LenVal
  top_margin : LenVal
  bottom_margin : LenVal
  headerParas : List String
  footerParas : List String
  deriving DecidableEq

/-- A parsed DOCX document.  `firstSection = none` models
`doc.sections[0]` raising (no sections); in that case the header/footer
block at lines 240-248 also fails (NameError on `section`) and is caught
by its own `try`/`except`. -/
structure DocxDocument where
  firstSection : Option DocxSection
  paragraphs : List DocxParagraph
  tables : List DocxTable
  inline_shapes : List LenVal
  deriving DecidableEq

/-- printable_height (lines 193-200): from the first section,
`max(1.0, page_height - (top_margin + bottom_margin))`; on section access
failure, `A4_HEIGHT_PT - 2 * DEFAULT_MARGIN_PT`. -/
def printableHeightOf (doc : DocxDocument) : ℚ :=
  match doc.firstSection with
  | some s =>
      max 1 (to_points_len s.page_height -
        (to_points_len s.top_margin + to_points_len s.bottom_margin))
  | none => A4_HEIGHT_PT - 2 * DEFAULT_MARGIN_PT

/-- One iteration of the paragraph loop (lines 206-222), threading
`(total_height_pt, explicit_page_breaks)`. -/
def docxParaStep (acc : ℚ × ℕ) (para : DocxParagraph) : ℚ × ℕ :=
  let breaks := if para.hasPageBreak then acc.2 + 1 else acc.2
  let text := para.text.trim
  if text = "" then (acc.1 + lineHeight, breaks)
  else
    let char_count := text.length
    let wrapped_lines : ℤ := max 1 ⌈(char_count : ℚ) / (AVG_CHARS_PER_LINE : ℚ)⌉
    (acc.1 + (wrapped_lines : ℚ) * lineHeight + PARA_SPACING_LINES * lineHeight,
      breaks)

/-- Height contribution of one inline shape (lines 232-238): the converted
height, replaced by the fallback 150.0 when non-positive, plus half a line. -/
def shapeHeight (sh : LenVal) : ℚ :=
  let h_pt := to_points_len sh
  let h_pt := if h_pt ≤ 0 then 150 else h_pt
  h_pt + 0.5 * lineHeight

/-- Header/footer contribution (lines 240-248).  When the first section is
unavailable the Python name `section` is unbound, the block raises and the
`except` skips it. The `header and header.paragraphs and any(...)` test is
equivalent to the `any(...)` test alone. -/
def headerFooterHeight (doc : DocxDocument) : ℚ :=
  match doc.firstSection with
  | none => 0
  | some s =>
      (if s.headerParas.any (fun p => decide (p.trim ≠ "")) then
        HEADER_FOOTER_LINES * lineHeight else 0) +
      (if s.footerParas.any (fun p => decide (p.trim ≠ "")) then
        HEADER_FOOTER_LINES * lineHeight else 0)

/-- Embedding of `estimate_docx_a4_pages` (lines 159-257). -/
def estimate_docx_a4_pages (doc : DocxDocument) : ℤ :=
  let printable_height := printableHeightOf doc
  let pb := doc.paragraphs.foldl docxParaStep (0, 0)
  let with_tables := doc.tables.foldl
    (fun acc t =>
      if 0 < t.rows then
        acc + (t.rows : ℚ) * (TABLE_ROW_LINES * lineHeight) +
          TABLE_AFTER_SPACING_LINES * lineHeight
      else acc) pb.1
  let with_images := doc.inline_shapes.foldl
    (fun acc sh => acc + shapeHeight sh) with_tables
  let total_height_pt := with_images + headerFooterHeight doc
  let content_pages := ⌈max 1 total_height_pt / printable_height⌉
  let pages := content_pages + (pb.2 : ℤ)
  max 1 pages

/-! ### Specification-side decompositions of the DOCX accumulation -/

/-- Height contribution of one paragraph, as described by the spec. -/
def paraHeight (para : DocxParagraph) : ℚ :=
  if para.text.trim = "" then lineHeight
  else
    ((max 1 ⌈(para.text.trim.length : ℚ) / (AVG_CHARS_PER_LINE : ℚ)⌉ : ℤ) : ℚ) *
        lineHeight +
      PARA_SPACING_LINES * lineHeight

/-- Number of paragraphs carrying a manual page break. -/
def docxBreakCount (ps : List DocxParagraph) : ℕ :=
  ps.countP (fun p => p.hasPageBreak)

/-- Height contribution of one table (lines 225-229). -/
def tableHeight (t : DocxTable) : ℚ :=
  if 0 < t.rows then
    (t.rows : ℚ) * (TABLE_ROW_LINES * lineHeight) +
      TABLE_AFTER_SPACING_LINES * lineHeight
  else 0

/-- Total accumulated height of a document, as a sum of the per-element
contributions. -/
def docxTotalHeight (doc : DocxDocument) : ℚ :=
  (doc.paragraphs.map paraHeight).sum + (doc.tables.map tableHeight).sum +
    (doc.inline_shapes.map shapeHeight).sum + headerFooterHeight doc

/-! ## XLSX model and `estimate_excel_a4_pages` (lines 259-301) -/

/-- A worksheet cell as seen by the loop: coordinates and value.  `value`
is `none` for Python `None`; any other value is rendered as the string the
`not in (None, "")` test compares against. -/
structure XlsxCell where
  row : ℕ
  column : ℕ
  value : Option String
  deriving DecidableEq

/-- The test `cell.value not in (None, "")` (line 275). -/
def cellNonEmpty (c : XlsxCell) : Bool :=
  match c.value with
  | none => false
  | some s => decide (s ≠ "")

/-- A worksheet: its cells in `iter_rows()` order. -/
structure Worksheet where
  cells : List XlsxCell
  deriving DecidableEq

abbrev Workbook := List Worksheet

/-- One iteration of the used-range scan (lines 273-282), threading the
optional `(min_row, max_row, min_col, max_col)` state. -/
def rangeStep (acc : Option (ℕ × ℕ × ℕ × ℕ)) (c : XlsxCell) :
    Option (ℕ × ℕ × ℕ × ℕ) :=
  if cellNonEmpty c then
    match acc with
    | none => some (c.row, c.row, c.column, c.column)
    | some (mr, xr, mc, xc) =>
        some (min mr c.row, max xr c.row, min mc c.column, max xc c.column)
  else acc

/-- The used-range scan of one sheet. -/
def usedRange (cells : List XlsxCell) : Option (ℕ × ℕ × ℕ × ℕ) :=
  cells.foldl rangeStep none

/-- Page contribution of one worksheet (lines 266-299). -/
def sheetPages (ws : Worksheet) : ℤ :=
  match usedRange ws.cells with
  | none => 1
  | some (mr, xr, mc, xc) =>
      let used_cols : ℕ := xc - mc + 1
      let used_rows : ℕ := xr - mr + 1
      let total_width : ℚ := (used_cols : ℚ) * 64
      let total_height : ℚ := (used_rows : ℚ) * 15
      let width_pages := ⌈total_width / (A4_WIDTH_PT - 2 * DEFAULT_MARGIN_PT)⌉
      let height_pages := ⌈total_height / (A4_HEIGHT_PT - 2 * DEFAULT_MARGIN_PT)⌉
      max 1 (width_pages * height_pages)

/-- Embedding of `estimate_excel_a4_pages` (lines 259-301):
`total_pages` accumulated over the worksheets. -/
def estimate_excel_a4_pages (wb : Workbook) : ℤ :=
  wb.foldl (fun acc ws => acc + sheetPages ws) 0

/-! ## UTF-8 decoding and `estimate_txt_a4_pages` (lines 303-322) -/

/-- Is a byte a UTF-8 continuation byte (0x80-0xBF)? -/
def contOk (b : ℕ) : Bool := decide (0x80 ≤ b ∧ b ≤ 0xBF)

/-- Valid range of the first continuation byte, which depends on the
leading byte (excluding overlong forms, surrogates and values beyond
U+10FFFF, as CPython's UTF-8 decoder does). -/
def cont1Ok (b0 b1 : ℕ) : Bool :=
  if b0 = 0xE0 then decide (0xA0 ≤ b1 ∧ b1 ≤ 0xBF)
  else if b0 = 0xED then decide (0x80 ≤ b1 ∧ b1 ≤ 0x9F)
  else if b0 = 0xF0 then decide (0x90 ≤ b1 ∧ b1 ≤ 0xBF)
  else if b0 = 0xF4 then decide (0x80 ≤ b1 ∧ b1 ≤ 0x8F)
  else contOk b1

/-- Embedding of `bytes.decode("utf-8", errors="ignore")`: decode a byte
list to the list of code points, skipping the maximal invalid subpart on
error (as the ignore handler does) and dropping a truncated final
sequence. Total on every input. -/
def decodeUtf8Ignore : List ℕ → List ℕ
  | [] => []
  | b0 :: rest =>
    if b0 < 0x80 then b0 :: decodeUtf8Ignore rest
    else if 0xC2 ≤ b0 ∧ b0 ≤ 0xDF then
      match rest with
      | [] => []
      | b1 :: r2 =>
        if contOk b1 then
          ((b0 - 0xC0) * 0x40 + (b1 - 0x80)) :: decodeUtf8Ignore r2
        else decodeUtf8Ignore (b1 :: r2)
    else if 0xE0 ≤ b0 ∧ b0 ≤ 0xEF then
      match rest with
      | [] => []
      | b1 :: r2 =>
        if cont1Ok b0 b1 then
          match r2 with
          | [] => []
          | b2 :: r3 =>
            if contOk b2 then
              ((b0 - 0xE0) * 0x1000 + (b1 - 0x80) * 0x40 + (b2 - 0x80)) ::
                decodeUtf8Ignore r3
            else decodeUtf8Ignore (b2 :: r3)
        else decodeUtf8Ignore (b1 :: r2)
    else if 0xF0 ≤ b0 ∧ b0 ≤ 0xF4 then
      match rest with
      | [] => []
      | b1 :: r2 =>
        if cont1Ok b0 b1 then
          match r2 with
          | [] => []
          | b2 :: r3 =>
            if contOk b2 then
              match r3 with
              | [] => []
              | b3 :: r4 =>
                if contOk b3 then
                  ((b0 - 0xF0) * 0x40000 + (b1 - 0x80) * 0x1000 +
                      (b2 - 0x80) * 0x40 + (b3 - 0x80)) ::
                    decodeUtf8Ignore r4
                else decodeUtf8Ignore (b3 :: r4)
            else decodeUtf8Ignore (b2 :: r3)
        else decodeUtf8Ignore (b1 :: r2)
    else decodeUtf8Ignore rest

/-- chars_per_page of the plain-text estimator (lines 308-318). -/
def charsPerPage : ℚ :=
  ((A4_WIDTH_PT - 2 * DEFAULT_MARGIN_PT) / (DEFAULT_FONT_SIZE_PT * 0.5)) *
    ((A4_HEIGHT_PT - 2 * DEFAULT_MARGIN_PT) /
      (DEFAULT_FONT_SIZE_PT * LINE_HEIGHT_FACTOR))

/-- Page count as a function of the decoded character count. -/
def txtPagesOfChars (total_chars : ℕ) : ℤ :=
  max 1 ⌈(total_chars : ℚ) / charsPerPage⌉

/-- Embedding of `estimate_txt_a4_pages` (lines 303-322). -/
def estimate_txt_a4_pages (file_bytes : List ℕ) : ℤ :=
  let total_chars := (decodeUtf8Ignore file_bytes).length
  let printable_width := A4_WIDTH_PT - 2 * DEFAULT_MARGIN_PT
  let printable_height := A4_HEIGHT_PT - 2 * DEFAULT_MARGIN_PT
  let char_width := DEFAULT_FONT_SIZE_PT * 0.5
  let line_height := DEFAULT_FONT_SIZE_PT * LINE_HEIGHT_FACTOR
  let chars_per_line := printable_width / char_width
  let lines_per_page := printable_height / line_height
  let chars_per_page := chars_per_line * lines_per_page
  let estimated_pages := ⌈(total_chars : ℚ) / chars_per_page⌉
  max 1 estimated_pages

/-! ## The dispatcher `page_count` (lines 132-156) -/

/-- Python `str.lower()` restricted to the per-character ASCII case map
(`Char.toLower`), which coincides with CPython on the ASCII extension
strings the dispatcher compares against. -/
def pyLower (s : String) : String := ⟨s.data.map Char.toLower⟩

/-- An uploaded file: its raw bytes together with the outcome of each
third-party parser on those bytes (`none` = the parser raised). -/
structure UploadFile where
  bytes : List ℕ
  pdfParse : Option ℕ
  pptxParse : Option ℕ
  imageParse : Option ℕ
  docxParse : Option DocxDocument
  xlsxParse : Option Workbook

/-- The extensions recognized by the dispatcher. -/
def supportedExtensions : List String :=
  [".pdf", ".pptx", ".docx", ".txt", ".png", ".jpg", ".jpeg", ".bmp",
    ".tiff", ".gif", ".xlsx"]

/-- Body of `page_count` without the surrounding `try`/`except`:
`Except.error ()` marks a raised exception, `Except.ok none` the final
`return None` for an unrecognized extension. -/
def page_count_body (f : UploadFile) (extension : String) :
    Except Unit (Option ℤ) :=
  let ext := pyLower extension
  if ext = ".pdf" then
    match f.pdfParse with
    | none => .error ()
    | some n => .ok (some (n : ℤ))
  else if ext = ".pptx" then
    match f.pptxParse with
    | none => .error ()
    | some n => .ok (some (n : ℤ))
  else if ext = ".docx" then
    match f.docxParse with
    | none => .error ()
    | some doc => .ok (some (estimate_docx_a4_pages doc))
  else if ext = ".txt" then .ok (some (estimate_txt_a4_pages f.bytes))
  else if ext ∈ ([".png", ".jpg", ".jpeg", ".bmp", ".tiff", ".gif"] : List String) then
    match f.imageParse with
    | none => .error ()
    | some n => .ok (some (n : ℤ))
  else if ext = ".xlsx" then
    match f.xlsxParse with
    | none => .error ()
    | some wb => .ok (some (estimate_excel_a4_pages wb))
  else .ok none

/-- Embedding of `Translator.page_count` (lines 132-156): the body wrapped
in `try`/`except Exception: return None`. -/
def page_count (f : UploadFile) (extension : String) : Option ℤ :=
  match page_count_body f extension with
  | .ok r => r
  | .error _ => none

/-! ## Helper lemmas -/

theorem char_toNat_ofNat {n : ℕ} (h : n.isValidChar) : (Char.ofNat n).toNat = n := by
  unfold Char.ofNat
  rw [dif_pos h]
  rfl

theorem toLower_eq (c : Char) :
    c.toLower = if 65 ≤ c.toNat ∧ c.toNat ≤ 90 then Char.ofNat (c.toNat + 32) else c := rfl

theorem toLower_toLower (c : Char) : c.toLower.toLower = c.toLower := by
  rw [toLower_eq c]
  by_cases h : 65 ≤ c.toNat ∧ c.toNat ≤ 90
  · rw [if_pos h, toLower_eq, char_toNat_ofNat (Or.inl (by omega))]
    rw [if_neg (by omega)]
  · rw [if_neg h, toLower_eq, if_neg h]

theorem pyLower_idem (s : String) : pyLower (pyLower s) = pyLower s := by
  have hcomp : Char.toLower ∘ Char.toLower = Char.toLower := funext toLower_toLower
  simp only [pyLower, List.map_map, hcomp]

/-- Folding `acc + g a` over a list starting at `c` is `c` plus the sum of
the contributions. -/
theorem foldl_add_map {α M : Type} [AddCommMonoid M] (g : α → M) (l : List α) :
    ∀ c : M, l.foldl (fun acc a => acc + g a) c = c + (l.map g).sum := by
  induction l with
  | nil => intro c; simp
  | cons a t ih =>
      intro c
      simp only [List.foldl_cons, List.map_cons, List.sum_cons, ih, add_assoc]

theorem docxParaStep_eq (acc : ℚ × ℕ) (p : DocxParagraph) :
    docxParaStep acc p =
      (acc.1 + paraHeight p, acc.2 + (if p.hasPageBreak then 1 else 0)) := by
  unfold docxParaStep paraHeight
  by_cases hb : p.hasPageBreak <;> by_cases ht : p.text.trim = "" <;>
    simp [hb, ht, add_assoc]

theorem paraFold_eq (l : List DocxParagraph) :
    ∀ a b, l.foldl docxParaStep (a, b) =
      (a + (l.map paraHeight).sum, b + docxBreakCount l) := by
  induction l with
  | nil => intro a b; simp [docxBreakCount]
  | cons p t ih =>
      intro a b
      simp only [List.foldl_cons, docxParaStep_eq, ih, List.map_cons, List.sum_cons,
        docxBreakCount, List.countP_cons, Prod.mk.injEq]
      constructor
      · ring
      · split_ifs <;> omega

theorem tableStep_eq :
    (fun (acc : ℚ) (t : DocxTable) =>
      if 0 < t.rows then
        acc + (t.rows : ℚ) * (TABLE_ROW_LINES * lineHeight) +
          TABLE_AFTER_SPACING_LINES * lineHeight
      else acc) = fun acc t => acc + tableHeight t := by
  funext acc t
  unfold tableHeight
  split_ifs with h
  · ring
  · ring

theorem estimate_docx_eq (doc : DocxDocument) :
    estimate_docx_a4_pages doc =
      max 1 (⌈max 1 (docxTotalHeight doc) / printableHeightOf doc⌉ +
        (docxBreakCount doc.paragraphs : ℤ)) := by
  simp only [estimate_docx_a4_pages, docxTotalHeight, tableStep_eq,
    paraFold_eq doc.paragraphs 0 0, foldl_add_map, zero_add]

theorem one_le_ceil_div {h p : ℚ} (hh : 0 < h) (hp : 0 < p) : 1 ≤ ⌈h / p⌉ := by
  have hd : (0 : ℚ) < h / p := div_pos hh hp
  have := Int.ceil_pos.mpr hd
  omega

theorem printable_ge_one (doc : DocxDocument) : 1 ≤ printableHeightOf doc := by
  unfold printableHeightOf
  rcases doc.firstSection with _ | s
  · norm_num [A4_HEIGHT_PT, DEFAULT_MARGIN_PT]
  · exact le_max_left _ _

theorem estimate_docx_ge_one (doc : DocxDocument) : 1 ≤ estimate_docx_a4_pages doc := by
  unfold estimate_docx_a4_pages
  exact le_max_left _ _

theorem estimate_txt_ge_one (l : List ℕ) : 1 ≤ estimate_txt_a4_pages l := by
  unfold estimate_txt_a4_pages
  exact le_max_left _ _

theorem sheetPages_ge_one (ws : Worksheet) : 1 ≤ sheetPages ws := by
  unfold sheetPages
  rcases usedRange ws.cells with _ | ⟨mr, xr, mc, xc⟩
  · norm_num
  · exact le_max_left _ _

theorem estimate_excel_eq_sum (wb : Workbook) :
    estimate_excel_a4_pages wb = (wb.map sheetPages).sum := by
  simp only [estimate_excel_a4_pages, foldl_add_map, zero_add]

theorem estimate_excel_ge_length (wb : Workbook) :
    (wb.length : ℤ) ≤ estimate_excel_a4_pages wb := by
  rw [estimate_excel_eq_sum]
  induction wb with
  | nil => simp
  | cons ws t ih =>
      simp only [List.map_cons, List.sum_cons, List.length_cons]
      have := sheetPages_ge_one ws
      push_cast
      omega

/-! ### Used-range scan: characterization lemmas -/

theorem rangeStep_skip {acc : Option (ℕ × ℕ × ℕ × ℕ)} {c : XlsxCell}
    (h : cellNonEmpty c = false) : rangeStep acc c = acc := by
  simp [rangeStep, h]

theorem rangeStep_none {c : XlsxCell} (h : cellNonEmpty c = true) :
    rangeStep none c = some (c.row, c.row, c.column, c.column) := by
  simp [rangeStep, h]

theorem rangeStep_some {c : XlsxCell} (h : cellNonEmpty c = true)
    (mr xr mc xc : ℕ) :
    rangeStep (some (mr, xr, mc, xc)) c =
      some (min mr c.row, max xr c.row, min mc c.column, max xc c.column) := by
  simp [rangeStep, h]

theorem foldl_rangeStep_isSome (cells : List XlsxCell) :
    ∀ b : ℕ × ℕ × ℕ × ℕ, ∃ b', cells.foldl rangeStep (some b) = some b' := by
  induction cells with
  | nil => intro b; exact ⟨b, rfl⟩
  | cons c t ih =>
      intro b
      rcases b with ⟨mr, xr, mc, xc⟩
      by_cases hc : cellNonEmpty c = true
      · rw [List.foldl_cons, rangeStep_some hc]
        exact ih _
      · rw [List.foldl_cons, rangeStep_skip (by simpa using hc)]
        exact ih _

/-- The scan yields `none` exactly when no cell passes the
`not in (None, "")` test. -/
theorem usedRange_eq_none_iff (cells : List XlsxCell) :
    usedRange cells = none ↔ ∀ c ∈ cells, cellNonEmpty c = false := by
  unfold usedRange
  induction cells with
  | nil => simp
  | cons c t ih =>
      by_cases hc : cellNonEmpty c = true
      · rw [List.foldl_cons, rangeStep_none hc]
        obtain ⟨b', hb'⟩ := foldl_rangeStep_isSome t _
        rw [hb']
        simp [hc]
      · have h' : cellNonEmpty c = false := by simpa using hc
        rw [List.foldl_cons, rangeStep_skip h', ih, List.forall_mem_cons]
        simp [h']

/-- Invariant of the scan once the accumulator is `some`: the final box
shrinks/grows monotonically from the initial one, bounds every non-empty
cell of the remaining list, and each of its four components is either the
corresponding initial component or comes from a non-empty cell. -/
theorem rangeFold_some_spec (cells : List XlsxCell) :
    ∀ mr xr mc xc mr' xr' mc' xc' : ℕ,
      cells.foldl rangeStep (some (mr, xr, mc, xc)) = some (mr', xr', mc', xc') →
      (mr' ≤ mr ∧ xr ≤ xr' ∧ mc' ≤ mc ∧ xc ≤ xc') ∧
      (∀ c ∈ cells, cellNonEmpty c = true →
        mr' ≤ c.row ∧ c.row ≤ xr' ∧ mc' ≤ c.column ∧ c.column ≤ xc') ∧
      (mr' = mr ∨ ∃ c ∈ cells, cellNonEmpty c = true ∧ c.row = mr') ∧
      (xr' = xr ∨ ∃ c ∈ cells, cellNonEmpty c = true ∧ c.row = xr') ∧
      (mc' = mc ∨ ∃ c ∈ cells, cellNonEmpty c = true ∧ c.column = mc') ∧
      (xc' = xc ∨ ∃ c ∈ cells, cellNonEmpty c = true ∧ c.column = xc') := by
  induction cells with
  | nil =>
      intro mr xr mc xc mr' xr' mc' xc' h
      simp only [List.foldl_nil, Option.some.injEq, Prod.mk.injEq] at h
      obtain ⟨h1, h2, h3, h4⟩ := h
      subst h1; subst h2; subst h3; subst h4
      simp
  | cons c t ih =>
      intro mr xr mc xc mr' xr' mc' xc' h
      by_cases hc : cellNonEmpty c = true
      · rw [List.foldl_cons, rangeStep_some hc] at h
        obtain ⟨hmono, hbound, ha1, ha2, ha3, ha4⟩ := ih _ _ _ _ _ _ _ _ h
        refine ⟨⟨le_trans hmono.1 (min_le_left _ _),
            le_trans (le_max_left _ _) hmono.2.1,
            le_trans hmono.2.2.1 (min_le_left _ _),
            le_trans (le_max_left _ _) hmono.2.2.2⟩, ?_, ?_, ?_, ?_, ?_⟩
        · intro c' hc' hne
          rcases List.mem_cons.mp hc' with rfl | hmem
          · exact ⟨le_trans hmono.1 (min_le_right _ _),
              le_trans (le_max_right _ _) hmono.2.1,
              le_trans hmono.2.2.1 (min_le_right _ _),
              le_trans (le_max_right _ _) hmono.2.2.2⟩
          · exact hbound c' hmem hne
        · rcases ha1 with heq | hex
          · rcases min_choice mr c.row with h1 | h1
            · exact Or.inl (heq.trans h1)
            · exact Or.inr ⟨c, List.mem_cons_self c t, hc, (heq.trans h1).symm⟩
          · exact Or.inr
              (let ⟨c', hm, hq⟩ := hex; ⟨c', List.mem_cons_of_mem _ hm, hq⟩)
        · rcases ha2 with heq | hex
          · rcases max_choice xr c.row with h1 | h1
            · exact Or.inl (heq.trans h1)
            · exact Or.inr ⟨c, List.mem_cons_self c t, hc, (heq.trans h1).symm⟩
          · exact Or.inr
              (let ⟨c', hm, hq⟩ := hex; ⟨c', List.mem_cons_of_mem _ hm, hq⟩)
        · rcases ha3 with heq | hex
          · rcases min_choice mc c.column with h1 | h1
            · exact Or.inl (heq.trans h1)
            · exact Or.inr ⟨c, List.mem_cons_self c t, hc, (heq.trans h1).symm⟩
          · exact Or.inr
              (let ⟨c', hm, hq⟩ := hex; ⟨c', List.mem_cons_of_mem _ hm, hq⟩)
        · rcases ha4 with heq | hex
          · rcases max_choice xc c.column with h1 | h1
            · exact Or.inl (heq.trans h1)
            · exact Or.inr ⟨c, List.mem_cons_self c t, hc, (heq.trans h1).symm⟩
          · exact Or.inr
              (let ⟨c', hm, hq⟩ := hex; ⟨c', List.mem_cons_of_mem _ hm, hq⟩)
      · have h' : cellNonEmpty c = false := by simpa using hc
        rw [List.foldl_cons, rangeStep_skip h'] at h
        obtain ⟨hmono, hbound, ha1, ha2, ha3, ha4⟩ := ih _ _ _ _ _ _ _ _ h
        refine ⟨hmono, ?_, ?_, ?_, ?_, ?_⟩
        · intro c' hc' hne
          rcases List.mem_cons.mp hc' with rfl | hmem
          · rw [h'] at hne; cases hne
          · exact hbound c' hmem hne
        · exact ha1.imp id
            (fun hex => let ⟨c', hm, hq⟩ := hex; ⟨c', List.mem_cons_of_mem _ hm, hq⟩)
        · exact ha2.imp id
            (fun hex => let ⟨c', hm, hq⟩ := hex; ⟨c', List.mem_cons_of_mem _ hm, hq⟩)
        · exact ha3.imp id
            (fun hex => let ⟨c', hm, hq⟩ := hex; ⟨c', List.mem_cons_of_mem _ hm, hq⟩)
        · exact ha4.imp id
            (fun hex => let ⟨c', hm, hq⟩ := hex; ⟨c', List.mem_cons_of_mem _ hm, hq⟩)

/-- When the scan yields a box, that box is the minimal bounding rectangle
of the non-empty cells: it bounds all of them and each of its four
components is attained by one of them. -/
theorem usedRange_some_spec (cells : List XlsxCell) :
    ∀ mr' xr' mc' xc' : ℕ,
      usedRange cells = some (mr', xr', mc', xc') →
      (∀ c ∈ cells, cellNonEmpty c = true →
        mr' ≤ c.row ∧ c.row ≤ xr' ∧ mc' ≤ c.column ∧ c.column ≤ xc') ∧
      (∃ c ∈ cells, cellNonEmpty c = true ∧ c.row = mr') ∧
      (∃ c ∈ cells, cellNonEmpty c = true ∧ c.row = xr') ∧
      (∃ c ∈ cells, cellNonEmpty c = true ∧ c.column = mc') ∧
      (∃ c ∈ cells, cellNonEmpty c = true ∧ c.column = xc') := by
  induction cells with
  | nil => intro mr' xr' mc' xc' h; simp [usedRange] at h
  | cons c t ih =>
      intro mr' xr' mc' xc' h
      unfold usedRange at h
      rw [List.foldl_cons] at h
      by_cases hc : cellNonEmpty c = true
      · rw [rangeStep_none hc] at h
        obtain ⟨hmono, hbound, ha1, ha2, ha3, ha4⟩ :=
          rangeFold_some_spec t _ _ _ _ _ _ _ _ h
        refine ⟨?_, ?_, ?_, ?_, ?_⟩
        · intro c' hc' hne
          rcases List.mem_cons.mp hc' with rfl | hmem
          · exact ⟨hmono.1, hmono.2.1, hmono.2.2.1, hmono.2.2.2⟩
          · exact hbound c' hmem hne
        · rcases ha1 with heq | hex
          · exact ⟨c, List.mem_cons_self c t, hc, heq.symm⟩
          · exact let ⟨c', hm, hq⟩ := hex; ⟨c', List.mem_cons_of_mem _ hm, hq⟩
        · rcases ha2 with heq | hex
          · exact ⟨c, List.mem_cons_self c t, hc, heq.symm⟩
          · exact let ⟨c', hm, hq⟩ := hex; ⟨c', List.mem_cons_of_mem _ hm, hq⟩
        · rcases ha3 with heq | hex
          · exact ⟨c, List.mem_cons_self c t, hc, heq.symm⟩
          · exact let ⟨c', hm, hq⟩ := hex; ⟨c', List.mem_cons_of_mem _ hm, hq⟩
        · rcases ha4 with heq | hex
          · exact ⟨c, List.mem_cons_self c t, hc, heq.symm⟩
          · exact let ⟨c', hm, hq⟩ := hex; ⟨c', List.mem_cons_of_mem _ hm, hq⟩
      · have h' : cellNonEmpty c = false := by simpa using hc
        rw [rangeStep_skip h'] at h
        obtain ⟨hbound, ha1, ha2, ha3, ha4⟩ := ih _ _ _ _ h
        refine ⟨?_, ?_, ?_, ?_, ?_⟩
        · intro c' hc' hne
          rcases List.mem_cons.mp hc' with rfl | hmem
          · rw [h'] at hne; cases hne
          · exact hbound c' hmem hne
        · exact let ⟨c', hm, hq⟩ := ha1; ⟨c', List.mem_cons_of_mem _ hm, hq⟩
        · exact let ⟨c', hm, hq⟩ := ha2; ⟨c', List.mem_cons_of_mem _ hm, hq⟩
        · exact let ⟨c', hm, hq⟩ := ha3; ⟨c', List.mem_cons_of_mem _ hm, hq⟩
        · exact let ⟨c', hm, hq⟩ := ha4; ⟨c', List.mem_cons_of_mem _ hm, hq⟩

theorem sheetPages_of_empty {ws : Worksheet} (h : usedRange ws.cells = none) :
    sheetPages ws = 1 := by
  simp [sheetPages, h]

theorem sheetPages_of_some {ws : Worksheet} {mr xr mc xc : ℕ}
    (h : usedRange ws.cells = some (mr, xr, mc, xc)) :
    sheetPages ws =
      max 1 (⌈((xc - mc + 1 : ℕ) : ℚ) * 64 / (A4_WIDTH_PT - 2 * DEFAULT_MARGIN_PT)⌉ *
        ⌈((xr - mr + 1 : ℕ) : ℚ) * 15 / (A4_HEIGHT_PT - 2 * DEFAULT_MARGIN_PT)⌉) := by
  simp [sheetPages, h]

theorem sum_sheetPages_all_empty (wb : Workbook)
    (h : ∀ ws ∈ wb, usedRange ws.cells = none) :
    (wb.map sheetPages).sum = (wb.length : ℤ) := by
  induction wb with
  | nil => simp
  | cons ws t ih =>
      rw [List.forall_mem_cons] at h
      rw [List.map_cons, List.sum_cons, sheetPages_of_empty h.1, ih h.2]
      simp
      omega

/-! ### Dispatcher branch lemmas -/

theorem page_count_body_docx (f : UploadFile) {ext : String}
    (h : pyLower ext = ".docx") :
    page_count_body f ext =
      match f.docxParse with
      | none => .error ()
      | some doc => .ok (some (estimate_docx_a4_pages doc)) := by
  simp only [page_count_body, h]
  rw [if_neg (by decide), if_neg (by decide), if_pos trivial]

theorem page_count_body_txt (f : UploadFile) {ext : String}
    (h : pyLower ext = ".txt") :
    page_count_body f ext = .ok (some (estimate_txt_a4_pages f.bytes)) := by
  simp only [page_count_body, h]
  rw [if_neg (by decide), if_neg (by decide), if_neg (by decide), if_pos trivial]

theorem page_count_body_xlsx (f : UploadFile) {ext : String}
    (h : pyLower ext = ".xlsx") :
    page_count_body f ext =
      match f.xlsxParse with
      | none => .error ()
      | some wb => .ok (some (estimate_excel_a4_pages wb)) := by
  simp only [page_count_body, h]
  rw [if_neg (by decide), if_neg (by decide), if_neg (by decide), if_neg (by decide),
    if_neg (by decide), if_pos trivial]

theorem page_count_body_unsupported (f : UploadFile) {ext : String}
    (h : pyLower ext ∉ supportedExtensions) :
    page_count_body f ext = .ok none := by
  simp only [supportedExtensions, List.mem_cons, List.not_mem_nil, or_false,
    not_or] at h
  obtain ⟨h1, h2, h3, h4, h5, h6, h7, h8, h9, h10, h11⟩ := h
  simp only [page_count_body]
  rw [if_neg h1, if_neg h2, if_neg h3, if_neg h4,
    if_neg (by
      simp only [List.mem_cons, List.not_mem_nil, or_false, not_or]
      exact ⟨h5, h6, h7, h8, h9, h10⟩),
    if_neg h11]

theorem page_count_of_body_ok {f : UploadFile} {ext : String} {r : Option ℤ}
    (h : page_count_body f ext = .ok r) : page_count f ext = r := by
  unfold page_count
  rw [h]

theorem page_count_of_body_error {f : UploadFile} {ext : String} {e : Unit}
    (h : page_count_body f ext = .error e) : page_count f ext = none := by
  unfold page_count
  rw [h]

/-- Every nonempty string has positive length. -/
theorem string_length_pos {s : String} (h : s ≠ "") : 0 < s.length := by
  rcases s with ⟨l⟩
  cases l with
  | nil => exact absurd rfl h
  | cons c cs => simp [String.length]

/-! ## Claims -/

/-- C1: `page_count` never propagates an exception to the caller: for every
file and extension its result is an integer or the unknown marker `none`;
an unrecognized extension yields `none`, and any exception raised inside
the dispatch body (e.g. a format parser failing on a corrupt buffer) is
caught at dispatch level and converted to `none`. -/
theorem page_count_no_propagation (f : UploadFile) (ext : String) :
    (page_count f ext = none ∨ ∃ n : ℤ, page_count f ext = some n) ∧
    (pyLower ext ∉ supportedExtensions → page_count f ext = none) ∧
    (∀ e : Unit, page_count_body f ext = Except.error e →
      page_count f ext = none) := by
  refine ⟨?_, ?_, ?_⟩
  · cases h : page_count f ext with
    | none => exact Or.inl rfl
    | some n => exact Or.inr ⟨n, rfl⟩
  · intro h
    exact page_count_of_body_ok (page_count_body_unsupported f h)
  · intro e he
    exact page_count_of_body_error he

/-- C1 witness: an unrecognized extension ".xyz" yields `none`, and a file
whose PDF parser raises on a corrupt buffer also yields `none`. -/
theorem page_count_no_propagation_witness :
    pyLower ".xyz" ∉ supportedExtensions ∧
    page_count ⟨[], none, none, none, none, none⟩ ".xyz" = none ∧
    page_count_body ⟨[], none, none, none, none, none⟩ ".pdf" = Except.error () ∧
    page_count ⟨[], none, none, none, none, none⟩ ".pdf" = none :=
  ⟨by decide,
    (page_count_no_propagation ⟨[], none, none, none, none, none⟩ ".xyz").2.1
      (by decide),
    rfl,
    (page_count_no_propagation ⟨[], none, none, none, none, none⟩ ".pdf").2.2 ()
      rfl⟩

/-- C2 counterexample: a workbook that parses to zero worksheets makes
`page_count` return the numeric result `some 0`, which is not ≥ 1, refuting
the claim that every numeric result is ≥ 1 even for degenerate input. -/
theorem page_count_zero_for_zero_sheets :
    page_count ⟨[], none, none, none, none, some []⟩ ".xlsx" = some 0 := by
  decide

/-- C2 (amended): a numeric `page_count` result is ≥ 1 for the `.docx` and
`.txt` strategies; for `.xlsx` it is at least the number of worksheets, so
it is ≥ 1 whenever the workbook has at least one worksheet, while a
zero-worksheet workbook yields 0 (and the native pdf/pptx/image branches
return the parser-reported count unfloored). -/
theorem page_count_pos_amended (f : UploadFile) (ext : String) (n : ℤ)
    (h : page_count f ext = some n) :
    ((pyLower ext = ".docx" ∨ pyLower ext = ".txt") → 1 ≤ n) ∧
    (pyLower ext = ".xlsx" → ∀ wb : Workbook, f.xlsxParse = some wb →
      (wb.length : ℤ) ≤ n) := by
  constructor
  · rintro (hd | ht)
    · have hb := page_count_body_docx f hd
      rcases hf : f.docxParse with _ | doc
      · rw [hf] at hb
        rw [page_count_of_body_error hb] at h
        simp at h
      · rw [hf] at hb
        rw [page_count_of_body_ok hb] at h
        injection h with h'
        exact h' ▸ estimate_docx_ge_one doc
    · have hb := page_count_body_txt f ht
      rw [page_count_of_body_ok hb] at h
      injection h with h'
      exact h' ▸ estimate_txt_ge_one f.bytes
  · intro hx wb hwb
    have hb := page_count_body_xlsx f hx
    rw [hwb] at hb
    rw [page_count_of_body_ok hb] at h
    injection h with h'
    exact h' ▸ estimate_excel_ge_length wb

/-- C2 witness: a workbook with one (empty) worksheet gets page count 1,
which is indeed at least its number of worksheets. -/
theorem page_count_pos_amended_witness :
    page_count ⟨[], none, none, none, none, some [⟨[]⟩]⟩ ".xlsx" = some 1 ∧
    pyLower ".xlsx" = ".xlsx" ∧
    ((([⟨[]⟩] : Workbook).length : ℤ) ≤ 1) :=
  ⟨by decide, by decide,
    (page_count_pos_amended ⟨[], none, none, none, none, some [⟨[]⟩]⟩ ".xlsx" 1
      (by decide)).2 (by decide) [⟨[]⟩] rfl⟩

/-- C3: the DOCX estimator's final total equals
max(1, ceil(max(1, total height) / printable height) + explicit breaks),
and consequently one explicit manual page break forces at least 2 pages. -/
theorem docx_total_formula (doc : DocxDocument) :
    estimate_docx_a4_pages doc =
      max 1 (⌈max 1 (docxTotalHeight doc) / printableHeightOf doc⌉ +
        (docxBreakCount doc.paragraphs : ℤ)) ∧
    (1 ≤ docxBreakCount doc.paragraphs → 2 ≤ estimate_docx_a4_pages doc) := by
  refine ⟨estimate_docx_eq doc, ?_⟩
  intro hb
  rw [estimate_docx_eq doc]
  have hp : (0 : ℚ) < printableHeightOf doc :=
    lt_of_lt_of_le one_pos (printable_ge_one doc)
  have hh : (0 : ℚ) < max 1 (docxTotalHeight doc) :=
    lt_of_lt_of_le one_pos (le_max_left _ _)
  have hc := one_le_ceil_div hh hp
  have hb' : (1 : ℤ) ≤ (docxBreakCount doc.paragraphs : ℤ) := by exact_mod_cast hb
  have h2 : (2 : ℤ) ≤ ⌈max 1 (docxTotalHeight doc) / printableHeightOf doc⌉ +
      (docxBreakCount doc.paragraphs : ℤ) := by omega
  exact le_trans h2 (le_max_right _ _)

/-- C3 witness: a document whose only content is one paragraph carrying a
manual page break estimates to at least 2 pages. -/
theorem docx_total_formula_witness :
    1 ≤ docxBreakCount [⟨"", true⟩] ∧
    2 ≤ estimate_docx_a4_pages ⟨none, [⟨"", true⟩], [], []⟩ :=
  ⟨by decide, (docx_total_formula ⟨none, [⟨"", true⟩], [], []⟩).2 (by decide)⟩

/-- C4: the spreadsheet estimator sums per-worksheet pages; an empty sheet
contributes exactly 1; a non-empty sheet contributes the tiling product
max(1, ceil(width) * ceil(height)) over its used range; the used range is
the minimal bounding rectangle of the cells whose value is neither absent
nor the empty string (bounds all of them, each side attained); and an
all-empty workbook totals exactly its number of worksheets. -/
theorem excel_tiling (wb : Workbook) :
    estimate_excel_a4_pages wb = (wb.map sheetPages).sum ∧
    (∀ ws : Worksheet, usedRange ws.cells = none → sheetPages ws = 1) ∧
    (∀ (ws : Worksheet) (mr xr mc xc : ℕ),
      usedRange ws.cells = some (mr, xr, mc, xc) →
      sheetPages ws =
        max 1
          (⌈((xc - mc + 1 : ℕ) : ℚ) * 64 / (A4_WIDTH_PT - 2 * DEFAULT_MARGIN_PT)⌉ *
            ⌈((xr - mr + 1 : ℕ) : ℚ) * 15 /
              (A4_HEIGHT_PT - 2 * DEFAULT_MARGIN_PT)⌉)) ∧
    (∀ (cells : List XlsxCell) (mr xr mc xc : ℕ),
      usedRange cells = some (mr, xr, mc, xc) →
      (∀ c ∈ cells, cellNonEmpty c = true →
        mr ≤ c.row ∧ c.row ≤ xr ∧ mc ≤ c.column ∧ c.column ≤ xc) ∧
      (∃ c ∈ cells, cellNonEmpty c = true ∧ c.row = mr) ∧
      (∃ c ∈ cells, cellNonEmpty c = true ∧ c.row = xr) ∧
      (∃ c ∈ cells, cellNonEmpty c = true ∧ c.column = mc) ∧
      (∃ c ∈ cells, cellNonEmpty c = true ∧ c.column = xc)) ∧
    ((∀ ws ∈ wb, usedRange ws.cells = none) →
      estimate_excel_a4_pages wb = (wb.length : ℤ)) :=
  ⟨estimate_excel_eq_sum wb, fun _ h => sheetPages_of_empty h,
    fun _ _ _ _ _ h => sheetPages_of_some h,
    fun cells mr xr mc xc h => usedRange_some_spec cells mr xr mc xc h,
    fun h => by rw [estimate_excel_eq_sum wb, sum_sheetPages_all_empty wb h]⟩

/-- C4 witness: a workbook of two empty worksheets totals 2 pages. -/
theorem excel_tiling_witness :
    (∀ ws ∈ ([⟨[]⟩, ⟨[]⟩] : Workbook), usedRange ws.cells = none) ∧
    estimate_excel_a4_pages [⟨[]⟩, ⟨[]⟩] = 2 :=
  ⟨by decide, (excel_tiling [⟨[]⟩, ⟨[]⟩]).2.2.2.2 (by decide)⟩

/-- C5: the plain-text estimator decodes the bytes ignoring undecodable
sequences and returns max(1, ceil(chars / chars-per-page)) where
chars-per-page is (printable width / (font size * 0.5)) *
(printable height / (font size * line factor)); empty input yields 1 page
and exceeding the one-page budget (3643 characters) by one yields 2. -/
theorem txt_char_budget :
    (∀ file_bytes : List ℕ,
      estimate_txt_a4_pages file_bytes =
        txtPagesOfChars (decodeUtf8Ignore file_bytes).length) ∧
    charsPerPage =
      ((A4_WIDTH_PT - 2 * DEFAULT_MARGIN_PT) / (DEFAULT_FONT_SIZE_PT * 0.5)) *
        ((A4_HEIGHT_PT - 2 * DEFAULT_MARGIN_PT) /
          (DEFAULT_FONT_SIZE_PT * LINE_HEIGHT_FACTOR)) ∧
    estimate_txt_a4_pages [] = 1 ∧
    ⌊charsPerPage⌋ = 3643 ∧ txtPagesOfChars 3643 = 1 ∧ txtPagesOfChars 3644 = 2 := by
  have hcpp : charsPerPage = 786995 / 216 := by
    norm_num [charsPerPage, A4_WIDTH_PT, A4_HEIGHT_PT, DEFAULT_MARGIN_PT,
      DEFAULT_FONT_SIZE_PT, LINE_HEIGHT_FACTOR]
  refine ⟨fun _ => rfl, rfl, ?_, ?_, ?_, ?_⟩
  · simp [estimate_txt_a4_pages, decodeUtf8Ignore]
  · rw [hcpp]
    norm_num
  · have hceil : ⌈(3643 : ℚ) / charsPerPage⌉ = 1 := by
      rw [hcpp, Int.ceil_eq_iff]
      norm_num
    unfold txtPagesOfChars
    push_cast
    rw [hceil]
    norm_num
  · have hceil : ⌈(3644 : ℚ) / charsPerPage⌉ = 2 := by
      rw [hcpp, Int.ceil_eq_iff]
      norm_num
    unfold txtPagesOfChars
    push_cast
    rw [hceil]
    norm_num

/-- C6: each inline image contributes its height converted to points (the
point measure when available, otherwise raw values above 10000 are EMU
divided by EMU_PER_POINT and values at or below are points) plus half a
line height, with a 150-point fallback when conversion fails or yields a
non-positive height; the total height sums these per-shape contributions. -/
theorem docx_image_heights :
    (∀ p : ℚ, to_points_len (.pts p) = p) ∧
    (∀ v : ℚ, to_points_len (.raw v) =
      if 10000 < v then v / EMU_PER_POINT else v) ∧
    to_points_len .bad = 0 ∧
    (∀ sh : LenVal, to_points_len sh ≤ 0 →
      shapeHeight sh = 150 + 0.5 * lineHeight) ∧
    (∀ sh : LenVal, 0 < to_points_len sh →
      shapeHeight sh = to_points_len sh + 0.5 * lineHeight) ∧
    (∀ doc : DocxDocument, docxTotalHeight doc =
      (doc.paragraphs.map paraHeight).sum + (doc.tables.map tableHeight).sum +
        (doc.inline_shapes.map shapeHeight).sum + headerFooterHeight doc) := by
  refine ⟨fun _ => rfl, fun _ => rfl, rfl, ?_, ?_, fun _ => rfl⟩
  · intro sh h
    simp only [shapeHeight]
    rw [if_pos h]
  · intro sh h
    simp only [shapeHeight]
    rw [if_neg (not_le.mpr h)]

/-- C6 witness: an unreadable height converts to 0, hence gets the
conservative 150-point fallback plus half a line. -/
theorem docx_image_heights_witness :
    to_points_len .bad ≤ 0 ∧ shapeHeight .bad = 150 + 0.5 * lineHeight :=
  ⟨by norm_num [to_points_len],
    docx_image_heights.2.2.2.1 .bad (by norm_num [to_points_len])⟩

/-- C7: dispatch is invariant under the casing of the extension. -/
theorem page_count_casing (f : UploadFile) (ext : String) :
    page_count f ext = page_count f (pyLower ext) := by
  simp only [page_count, page_count_body, pyLower_idem]

/-- C8: the DOCX estimator reads printable height from the first section's
geometry (page height minus margins, under the 1-point floor) when
available, equalling exactly page height minus margins in the non-degenerate
case, and falls back to A4 minus two default margins otherwise; a
whitespace-only paragraph adds one line height, and a non-empty paragraph
adds ceil(chars / 80) line heights plus the 0.3-line after-spacing. -/
theorem docx_geometry_paragraphs :
    (∀ (doc : DocxDocument) (s : DocxSection), doc.firstSection = some s →
      printableHeightOf doc =
        max 1 (to_points_len s.page_height -
          (to_points_len s.top_margin + to_points_len s.bottom_margin))) ∧
    (∀ (doc : DocxDocument) (s : DocxSection), doc.firstSection = some s →
      1 ≤ to_points_len s.page_height -
          (to_points_len s.top_margin + to_points_len s.bottom_margin) →
      printableHeightOf doc =
        to_points_len s.page_height -
          (to_points_len s.top_margin + to_points_len s.bottom_margin)) ∧
    (∀ doc : DocxDocument, doc.firstSection = none →
      printableHeightOf doc = A4_HEIGHT_PT - 2 * DEFAULT_MARGIN_PT) ∧
    (∀ p : DocxParagraph, p.text.trim = "" → paraHeight p = lineHeight) ∧
    (∀ p : DocxParagraph, p.text.trim ≠ "" →
      paraHeight p =
        ((⌈(p.text.trim.length : ℚ) / (AVG_CHARS_PER_LINE : ℚ)⌉ : ℤ) : ℚ) *
            lineHeight +
          PARA_SPACING_LINES * lineHeight) := by
  refine ⟨?_, ?_, ?_, ?_, ?_⟩
  · intro doc s h
    simp [printableHeightOf, h]
  · intro doc s h hge
    simp [printableHeightOf, h, max_eq_right hge]
  · intro doc h
    simp [printableHeightOf, h]
  · intro p h
    simp [paraHeight, h]
  · intro p h
    simp only [paraHeight, if_neg h]
    have hl : 0 < p.text.trim.length := string_length_pos h
    have hnum : (0 : ℚ) < (p.text.trim.length : ℚ) := by exact_mod_cast hl
    have hden : (0 : ℚ) < (AVG_CHARS_PER_LINE : ℚ) := by
      norm_num [AVG_CHARS_PER_LINE]
    have hc := one_le_ceil_div hnum hden
    rw [max_eq_right hc]

/-- C8 witness: a 842x72x72 section gives printable height 698 = page
height minus the two margins. -/
theorem docx_geometry_paragraphs_witness :
    (⟨some ⟨.pts 842, .pts 72, .pts 72, [], []⟩, [], [], []⟩ :
        DocxDocument).firstSection = some ⟨.pts 842, .pts 72, .pts 72, [], []⟩ ∧
    (1 : ℚ) ≤ to_points_len (.pts 842) -
      (to_points_len (.pts 72) + to_points_len (.pts 72)) ∧
    printableHeightOf ⟨some ⟨.pts 842, .pts 72, .pts 72, [], []⟩, [], [], []⟩ =
      to_points_len (.pts 842) -
        (to_points_len (.pts 72) + to_points_len (.pts 72)) :=
  ⟨rfl, by norm_num [to_points_len],
    docx_geometry_paragraphs.2.1 _ _ rfl (by norm_num [to_points_len])⟩

/-- C9: the section-derived printable height carries the max(1, _) floor,
so the printable height is always at least 1 point and the content-page
ceiling division is well defined and at least 1, even when the declared
margins meet or exceed the page height. -/
theorem docx_printable_positive :
    (∀ doc : DocxDocument, 1 ≤ printableHeightOf doc) ∧
    (∀ (doc : DocxDocument) (s : DocxSection), doc.firstSection = some s →
      printableHeightOf doc =
        max 1 (to_points_len s.page_height -
          (to_points_len s.top_margin + to_points_len s.bottom_margin)) ∧
      1 ≤ printableHeightOf doc) ∧
    (∀ doc : DocxDocument,
      1 ≤ ⌈max 1 (docxTotalHeight doc) / printableHeightOf doc⌉) := by
  refine ⟨printable_ge_one, ?_, ?_⟩
  · intro doc s h
    exact ⟨by simp [printableHeightOf, h], printable_ge_one doc⟩
  · intro doc
    exact one_le_ceil_div (lt_of_lt_of_le one_pos (le_max_left _ _))
      (lt_of_lt_of_le one_pos (printable_ge_one doc))

/-- C9 witness: a document declaring margins (200 + 300) larger than its
page height (100) still yields a printable height of at least 1. -/
theorem docx_printable_positive_witness :
    (⟨some ⟨.pts 100, .pts 200, .pts 300, [], []⟩, [], [], []⟩ :
        DocxDocument).firstSection = some ⟨.pts 100, .pts 200, .pts 300, [], []⟩ ∧
    1 ≤ printableHeightOf ⟨some ⟨.pts 100, .pts 200, .pts 300, [], []⟩, [], [], []⟩ :=
  ⟨rfl,
    (docx_printable_positive.2.1 ⟨some ⟨.pts 100, .pts 200, .pts 300, [], []⟩, [], [], []⟩
      ⟨.pts 100, .pts 200, .pts 300, [], []⟩ rfl).2⟩

/-- C10: the ".txt" path can never produce the unknown marker: for every
byte buffer it returns exactly the plain-text estimate, an integer ≥ 1. -/
theorem page_count_txt_total (f : UploadFile) :
    page_count f ".txt" = some (estimate_txt_a4_pages f.bytes) ∧
    1 ≤ estimate_txt_a4_pages f.bytes :=
  ⟨rfl, estimate_txt_ge_one f.bytes⟩

end TranslatorApp
